import Mathlib

set_option linter.unusedVariables false

/-!
Verification development for the XHS signature server (`sign_server.py`).

The source is a single Flask application driving a Playwright browser.  The
embedding below translates its pure control flow: external effects (network
fetches, browser-engine calls, the opaque in-page signing function
`window._webmsxyw`) are supplied as explicit environments/oracles, and the
module-level globals (`playwright_instance`, `browser_context`,
`context_page`, `global_a1`) become an explicit state record threaded through
the handlers.  Durations of sleeps and timestamps are recorded as events, not
real time.
-/

namespace SignServer

/-- Values exchanged with the in-page JavaScript world and the JSON HTTP
layer, as Python sees them after conversion: strings, integers, booleans,
`None`, lists and dicts (dicts as association lists with distinct keys,
first-match lookup). -/
inductive JsVal where
  | str (s : String)
  | num (n : Int)
  | bool (b : Bool)
  | nil
  | list (items : List JsVal)
  | dict (entries : List (String × JsVal))

/-- Python truthiness of a `JsVal` (`bool(v)`). -/
def truthy : JsVal → Bool
  | .str s => !(s == "")
  | .num n => !(n == 0)
  | .bool b => b
  | .nil => false
  | .list items => !items.isEmpty
  | .dict entries => !entries.isEmpty

mutual

/-- Python `repr` of a JSON-like value (used by `str` on containers). -/
def pyRepr : JsVal → String
  | .str s => "\x27" ++ s ++ "\x27"
  | .num n => toString n
  | .bool b => if b then "True" else "False"
  | .nil => "None"
  | .list items => "[" ++ pyReprList items ++ "]"
  | .dict entries => "\x7b" ++ pyReprEntries entries ++ "\x7d"

/-- Comma-separated `repr`s of list elements. -/
def pyReprList : List JsVal → String
  | [] => ""
  | [v] => pyRepr v
  | v :: w :: rest => pyRepr v ++ ", " ++ pyReprList (w :: rest)

/-- Comma-separated `repr`s of dict entries. -/
def pyReprEntries : List (String × JsVal) → String
  | [] => ""
  | [(k, v)] => "\x27" ++ k ++ "\x27: " ++ pyRepr v
  | (k, v) :: kv :: rest =>
      "\x27" ++ k ++ "\x27: " ++ pyRepr v ++ ", " ++ pyReprEntries (kv :: rest)

end

/-- Python `str()` of a `JsVal`. -/
def pyStr : JsVal → String
  | .str s => s
  | .num n => toString n
  | .bool b => if b then "True" else "False"
  | .nil => "None"
  | .list items => "[" ++ pyReprList items ++ "]"
  | .dict entries => "\x7b" ++ pyReprEntries entries ++ "\x7d"

/-- Python `type(v)` rendered as in an f-string. -/
def pyType : JsVal → String
  | .str _ => "<class \x27str\x27>"
  | .num _ => "<class \x27int\x27>"
  | .bool _ => "<class \x27bool\x27>"
  | .nil => "<class \x27NoneType\x27>"
  | .list _ => "<class \x27list\x27>"
  | .dict _ => "<class \x27dict\x27>"

/-- Python `d.get(k)` on a dict: `some` the value if the key is present,
`none` otherwise. -/
def dget (entries : List (String × JsVal)) (k : String) : Option JsVal :=
  (entries.find? (fun kv => kv.1 == k)).map (fun kv => kv.2)

/-- Python `a or b`: `a` if truthy, else `b`. -/
def pyOr (a b : JsVal) : JsVal :=
  if truthy a then a else b

/-- `encrypt_params.get("X-s") or encrypt_params.get("x-s") or ""`
(sign_server.py line 214). -/
def extractSig (d : List (String × JsVal)) : JsVal :=
  pyOr (pyOr ((dget d "X-s").getD .nil) ((dget d "x-s").getD .nil)) (.str "")

/-- `encrypt_params.get("X-t") or encrypt_params.get("x-t") or ""`
(sign_server.py line 215). -/
def extractTs (d : List (String × JsVal)) : JsVal :=
  pyOr (pyOr ((dget d "X-t").getD .nil) ((dget d "x-t").getD .nil)) (.str "")

/-- Whether Python `v[:50]` succeeds: only `str` and `list` support slicing
among JSON-like values. -/
def sliceable : JsVal → Bool
  | .str _ => true
  | .list _ => true
  | _ => false

/-- The `TypeError` message raised by Python when slicing an unsliceable
value (`x_s[:50]` in the log line at sign_server.py line 229). -/
def sliceErr : JsVal → String
  | .num _ => "\x27int\x27 object is not subscriptable"
  | .bool _ => "\x27bool\x27 object is not subscriptable"
  | .nil => "\x27NoneType\x27 object is not subscriptable"
  | .dict _ => "unhashable type: \x27slice\x27"
  | .str _ => ""
  | .list _ => ""

/-- Observable effects of the server, recorded as a trace. -/
inductive Event where
  | netGet (idx : Nat)
  | fileWrite
  | playwrightStart
  | browserLaunch
  | newContext
  | addInitScript
  | newPage
  | gotoHome
  | sleepSec
  | cookiesRead
  | pageEval (attempt : Nat)
  | sleepHalf
deriving DecidableEq, Repr

/-- Message of the terminal exception raised after the 10th failed attempt
(sign_server.py line 243). -/
def wrapMsg (m : String) : String :=
  "签名失败（重试10次）: " ++ m

/-- One iteration of `generate_sign`'s try-block (sign_server.py lines
197-232), given the outcome of `context_page.evaluate`.  An `.error` is the
caught exception's `str(e)`; `.ok` is the `result` dict.  Note the order of
raises inside the try-block: the evaluate call itself, then the not-a-dict
check (line 211), then the `TypeError` from `x_s[:50]` in the success log
(line 229) when the extracted signature is truthy but unsliceable. -/
def attempt_once (r : Except String JsVal) : Except String JsVal :=
  match r with
  | .error e => .error e
  | .ok (.dict d) =>
      let x_s := extractSig d
      let x_t := extractTs d
      let result := JsVal.dict [("x-s", x_s), ("x-t", .str (pyStr x_t))]
      if truthy x_s && !(sliceable x_s) then .error (sliceErr x_s)
      else .ok result
  | .ok v => .error ("签名函数返回值不是字典: " ++ pyType v)

/-- The retry loop of `generate_sign` (sign_server.py lines 195-250),
starting at attempt index `idx` with `fuel` iterations remaining
(`generate_sign` runs it with `fuel = 10`, `idx = 0`, so `fuel + idx = 10`
everywhere reachable).  `page_eval i` is the outcome of the `i`-th evaluation
of the in-page signing function.  Returns the event trace and either the
result dict or the message of the propagated exception.  The `fuel = 0` case
is the unreachable fall-through after the loop (line 250). -/
def gsFrom (page_eval : Nat → Except String JsVal) :
    Nat → Nat → List Event × Except String JsVal
  | 0, _ => ([], .error "重试了这么多次还是无法签名成功")
  | fuel + 1, idx =>
      match attempt_once (page_eval idx) with
      | .ok r => ([Event.pageEval idx], .ok r)
      | .error m =>
          if idx = 9 then
            ([Event.pageEval idx], .error (wrapMsg m))
          else
            let rest := gsFrom page_eval fuel (idx + 1)
            (Event.pageEval idx :: Event.sleepHalf :: rest.1, rest.2)

/-- `generate_sign(uri, data, a1, web_session, web_id)` (sign_server.py
lines 177-250).  The five parameters mirror the Python signature; `a1`,
`web_session` and `web_id` are accepted but unused, and `uri`/`data` are
only ever passed to the opaque in-page function, whose per-attempt outcomes
the oracle `page_eval` supplies. -/
def generate_sign (uri data a1 web_session web_id : JsVal)
    (page_eval : Nat → Except String JsVal) :
    List Event × Except String JsVal :=
  gsFrom page_eval 10 0

/-- The local filesystem, restricted to the one path the program touches:
the cached `stealth.min.js` content, when present. -/
structure FS where
  stealth : Option String
deriving DecidableEq, Repr

/-- Outcome of `requests.get(url, timeout=30)` for one mirror: either the
request raised (timeout, connection error) or it returned a response with a
status code and a text body.  `raise_for_status()` raises exactly when the
status is at least 400. -/
inductive NetOutcome where
  | err (msg : String)
  | resp (status : Nat) (text : String)

/-- Inner loop of `download_stealth_js` over the remaining mirror indices
(sign_server.py lines 70-98): skip a mirror on a raised request, an error
status, or a body shorter than 100 characters; on the first good body write
the file and return the path. -/
def dlTry (fs : FS) (net : Nat → NetOutcome) :
    List Nat → Option String × FS × List Event
  | [] => (none, fs, [])
  | i :: rest =>
      match net i with
      | .err _ =>
          let out := dlTry fs net rest
          (out.1, out.2.1, Event.netGet i :: out.2.2)
      | .resp status text =>
          if 400 ≤ status then
            let out := dlTry fs net rest
            (out.1, out.2.1, Event.netGet i :: out.2.2)
          else if text.length < 100 then
            let out := dlTry fs net rest
            (out.1, out.2.1, Event.netGet i :: out.2.2)
          else
            (some "stealth.min.js", { fs with stealth := some text },
              [Event.netGet i, Event.fileWrite])

/-- `download_stealth_js()` (sign_server.py lines 51-98): if the file
already exists, return the path at once; otherwise try the three mirrors in
order; if all fail, return `none` (no exception escapes: the loop catches
everything).  Returns the path, the updated filesystem and the trace. -/
def download_stealth_js (fs : FS) (net : Nat → NetOutcome) :
    Option String × FS × List Event :=
  if fs.stealth.isSome then (some "stealth.min.js", fs, [])
  else dlTry fs net [0, 1, 2]

/-- The module-level globals of sign_server.py (lines 45-48).  Handles carry
no observable structure, so they are `Option Unit`: `some ()` once assigned. -/
structure ServerState where
  playwright_instance : Option Unit
  browser_context : Option Unit
  context_page : Option Unit
  global_a1 : String
deriving DecidableEq, Repr

/-- Global state plus the filesystem. -/
structure Sys where
  st : ServerState
  fs : FS
deriving DecidableEq, Repr

/-- The freshly started process: all globals unassigned, `global_a1 = ""`,
and no cached asset file. -/
def sys0 : Sys :=
  { st := { playwright_instance := none, browser_context := none,
            context_page := none, global_a1 := "" },
    fs := { stealth := none } }

/-- Environment for one run of `init_browser`: outcomes of the external
browser-engine calls, the network, and the cookies the context holds after
the settling sleep.  Each `Except String Unit` is `.error` exactly when the
corresponding Playwright call raises. -/
structure InitEnv where
  net : Nat → NetOutcome
  start_result : Except String Unit
  launch_result : Except String Unit
  new_context_result : Except String Unit
  add_script_result : Except String Unit
  new_page_result : Except String Unit
  goto_result : Except String Unit
  cookies : List (String × String)

/-- Steps 6-9 of `init_browser` (page creation, navigation, settling sleep,
cookie harvest; sign_server.py lines 136-157), shared by the with- and
without-stealth paths. -/
def init_browser_rest (sys : Sys) (env : InitEnv) (evs : List Event) :
    Sys × List Event × Except String Unit :=
  match env.new_page_result with
  | .error e => (sys, evs ++ [Event.newPage], .error e)
  | .ok _ =>
  let sys := { sys with st.context_page := some () }
  match env.goto_result with
  | .error e => (sys, evs ++ [Event.newPage, Event.gotoHome], .error e)
  | .ok _ =>
  let found := (env.cookies.find? (fun c => c.1 == "a1")).map (fun c => c.2)
  let sys := { sys with st.global_a1 := found.getD sys.st.global_a1 }
  (sys, evs ++ [Event.newPage, Event.gotoHome, Event.sleepSec,
    Event.cookiesRead], .ok ())

/-- `init_browser()` (sign_server.py lines 101-165).  Globals are assigned
exactly where the Python assigns them, so a failure part-way leaves every
assignment already made in place (the `except` clause only logs and
re-raises; nothing is reset).  In particular `context_page` is assigned by a
successful `new_page` *before* the `goto` navigation. -/
def init_browser (sys : Sys) (env : InitEnv) :
    Sys × List Event × Except String Unit :=
  let dl := download_stealth_js sys.fs env.net
  let stealth_js_path := dl.1
  let sys := { sys with fs := dl.2.1 }
  let evs := dl.2.2
  match env.start_result with
  | .error e => (sys, evs ++ [Event.playwrightStart], .error e)
  | .ok _ =>
  let sys := { sys with st.playwright_instance := some () }
  match env.launch_result with
  | .error e =>
      (sys, evs ++ [Event.playwrightStart, Event.browserLaunch], .error e)
  | .ok _ =>
  match env.new_context_result with
  | .error e =>
      (sys, evs ++ [Event.playwrightStart, Event.browserLaunch,
        Event.newContext], .error e)
  | .ok _ =>
  let sys := { sys with st.browser_context := some () }
  let evs := evs ++ [Event.playwrightStart, Event.browserLaunch,
    Event.newContext]
  match stealth_js_path with
  | some _ =>
      match env.add_script_result with
      | .error e => (sys, evs ++ [Event.addInitScript], .error e)
      | .ok _ => init_browser_rest sys env (evs ++ [Event.addInitScript])
  | none => init_browser_rest sys env evs

/-- `ensure_browser()` (sign_server.py lines 168-174), the
`@app.before_request` hook: run the full `init_browser` when and only when
`context_page` is unassigned. -/
def ensure_browser (sys : Sys) (env : InitEnv) :
    Sys × List Event × Except String Unit :=
  if sys.st.context_page = none then init_browser sys env
  else (sys, [], .ok ())

/-- Outcome of `request.get_json()` at the top of the `/sign` handler.

Modelled from the spec: Flask's `request.get_json` is library code not in
this repository.  Per the spec's external-interface section it either yields
the parsed JSON value (`None` when the decoded body is JSON `null`; the
handler's own falsiness check then treats the body as missing), or raises
when the body is present but cannot be parsed as JSON (including a
non-JSON content type); `msg`/`ty` are the raised exception's `str(e)` and
`type(e).__name__`. -/
inductive GetJsonResult where
  | parsed (v : JsVal)
  | raised (msg : String) (ty : String)

/-- An HTTP response: status code and JSON body. -/
structure HttpResponse where
  status : Nat
  body : JsVal

/-- The static retry hint attached to 500 responses (sign_server.py
line 340). -/
def hintMsg : String :=
  "即便做了重试，还是有可能会遇到签名失败的情况，请重试"

/-- The `AttributeError` message for `json_data.get(...)` when the parsed
body is a truthy non-dict value. -/
def attrErrMsg : JsVal → String
  | .str _ => "\x27str\x27 object has no attribute \x27get\x27"
  | .num _ => "\x27int\x27 object has no attribute \x27get\x27"
  | .bool _ => "\x27bool\x27 object has no attribute \x27get\x27"
  | .nil => "\x27NoneType\x27 object has no attribute \x27get\x27"
  | .list _ => "\x27list\x27 object has no attribute \x27get\x27"
  | .dict _ => ""

/-- The 500 body built by the `/sign` handler's `except` clause
(sign_server.py lines 334-341). -/
def signFailureBody (msg ty : String) : JsVal :=
  .dict [("error", .str msg), ("error_type", .str ty),
    ("success", .bool false), ("hint", .str hintMsg)]

/-- `sign_endpoint()` (sign_server.py lines 293-341).  Input: the outcome of
`request.get_json()` and the per-attempt oracle for the in-page signing
function; output: the page-evaluation trace and the response.  The whole
handler body sits in one `try`, so an exception from `get_json`, from
`.get` on a non-dict body, or from `generate_sign` all land in the same
`except` clause producing the 500 body. -/
def sign_endpoint (gj : GetJsonResult)
    (page_eval : Nat → Except String JsVal) : List Event × HttpResponse :=
  match gj with
  | .raised msg ty => ([], { status := 500, body := signFailureBody msg ty })
  | .parsed json_data =>
      if !truthy json_data then
        ([], { status := 400, body := .dict [("error",
          .str "Request body is required"), ("success", .bool false)] })
      else
        match json_data with
        | .dict d =>
            let uri := (dget d "uri").getD (.str "")
            let data := (dget d "data").getD .nil
            let a1 := (dget d "a1").getD (.str "")
            let web_session := (dget d "web_session").getD (.str "")
            let web_id := (dget d "web_id").getD (.str "")
            if !truthy uri then
              ([], { status := 400, body := .dict [("error",
                .str "uri parameter is required"), ("success", .bool false)] })
            else
              let out := generate_sign uri data a1 web_session web_id page_eval
              match out.2 with
              | .ok result => (out.1, { status := 200, body := result })
              | .error m =>
                  (out.1,
                    { status := 500, body := signFailureBody m "Exception" })
        | v =>
            ([],
              { status := 500,
                body := signFailureBody (attrErrMsg v) "AttributeError" })

/-- `health_check()` (sign_server.py lines 280-290): 200/"healthy" when
`context_page` is assigned, 503/"initializing" otherwise; `now` stands for
`time.time()`. -/
def health_check (st : ServerState) (now : Int) : HttpResponse :=
  let browser_ready := st.context_page.isSome
  { status := if browser_ready then 200 else 503,
    body := .dict [
      ("status", .str (if browser_ready then "healthy" else "initializing")),
      ("browser_ready", .bool browser_ready),
      ("a1", .str (if truthy (.str st.global_a1) then
        st.global_a1.take 20 ++ "..." else "")),
      ("timestamp", .num now)] }

/-- Body of the `/` metadata endpoint (sign_server.py lines 257-277). -/
def indexBody : JsVal :=
  .dict [("service", .str "XHS Signature Server"),
    ("description", .str "小红书 API 签名服务"),
    ("status", .str "running"),
    ("version", .str "1.0.0"),
    ("endpoints", .dict [
      ("health", .dict [("path", .str "/health"), ("method", .str "GET"),
        ("description", .str "健康检查")]),
      ("sign", .dict [("path", .str "/sign"), ("method", .str "POST"),
        ("description", .str "生成签名")])])]

/-- An inbound HTTP request to one of the registered routes. -/
inductive Request where
  | postSign (gj : GetJsonResult)
  | getHealth
  | getA1
  | getWebA1
  | getIndex

/-- Environment for handling one request: the initialization environment
consulted if the before-request hook has to initialize, the signing oracle,
and the clock. -/
structure Env where
  init : InitEnv
  page_eval : Nat → Except String JsVal
  now : Int

/-- Body produced by the registered `@app.errorhandler(500)` when an
unhandled exception (e.g. from `init_browser` inside the before-request
hook) aborts the request; the `message` field holds `str(e)` of Werkzeug's
`InternalServerError`. -/
def internalErrorBody : JsVal :=
  .dict [("error", .str "Internal server error"),
    ("message", .str ("500 Internal Server Error: The server encountered " ++
      "an internal error and was unable to complete your request. Either " ++
      "the server is overloaded or there is an error in the application."))]

/-- Full request pipeline: Flask runs `ensure_browser` (the
`@app.before_request` hook) first; if it raises, the 500 error handler
replies and the route handler never runs; otherwise the route handler runs
against the (possibly freshly initialized) state. -/
def handle_request (sys : Sys) (env : Env) (req : Request) :
    Sys × List Event × HttpResponse :=
  let pre := ensure_browser sys env.init
  match pre.2.2 with
  | .error _ => (pre.1, pre.2.1, { status := 500, body := internalErrorBody })
  | .ok _ =>
      match req with
      | .postSign gj =>
          let out := sign_endpoint gj env.page_eval
          (pre.1, pre.2.1 ++ out.1, out.2)
      | .getHealth => (pre.1, pre.2.1, health_check pre.1.st env.now)
      | .getA1 => (pre.1, pre.2.1,
          { status := 200, body := .dict [("a1", .str pre.1.st.global_a1)] })
      | .getWebA1 => (pre.1, pre.2.1,
          { status := 200,
            body := .dict [("web_a1", .str pre.1.st.global_a1)] })
      | .getIndex => (pre.1, pre.2.1, { status := 200, body := indexBody })

/-! ### Helper predicates and lemmas about the retry loop -/

/-- Whether an attempt outcome is a failure. -/
def isErr : Except String JsVal → Bool
  | .error _ => true
  | .ok _ => false

/-- Whether an event is an evaluation of the in-page signing function. -/
def isPageEvalB : Event → Bool
  | .pageEval _ => true
  | _ => false

/-- The event trace of a run whose attempts `idx, …, idx + n - 1` fail (each
evaluation followed by the half-second pause) and whose attempt `idx + n` is
the last one evaluated. -/
def retryTrace : Nat → Nat → List Event
  | idx, 0 => [Event.pageEval idx]
  | idx, n + 1 => Event.pageEval idx :: Event.sleepHalf :: retryTrace (idx + 1) n

lemma gsFrom_count (pe : Nat → Except String JsVal) :
    ∀ fuel idx, ((gsFrom pe fuel idx).1.filter isPageEvalB).length ≤ fuel := by
  intro fuel
  induction fuel with
  | zero => intro idx; simp [gsFrom]
  | succ fuel ih =>
      intro idx
      simp only [gsFrom]
      cases hA : attempt_once (pe idx) with
      | ok r => simp [isPageEvalB]
      | error m =>
          by_cases h9 : idx = 9
          · simp [h9, isPageEvalB]
          · have h := ih (idx + 1)
            simp [h9, isPageEvalB]
            omega

lemma gsFrom_events (pe : Nat → Except String JsVal) :
    ∀ fuel idx e, e ∈ (gsFrom pe fuel idx).1 →
      (∃ i, e = Event.pageEval i) ∨ e = Event.sleepHalf := by
  intro fuel
  induction fuel with
  | zero => intro idx e h; simp [gsFrom] at h
  | succ fuel ih =>
      intro idx e h
      simp only [gsFrom] at h
      cases hA : attempt_once (pe idx) with
      | ok r =>
          rw [hA] at h
          simp at h
          exact Or.inl ⟨idx, h⟩
      | error m =>
          rw [hA] at h
          by_cases h9 : idx = 9
          · simp [h9] at h
            exact Or.inl ⟨9, h⟩
          · simp [h9] at h
            rcases h with h | h | h
            · exact Or.inl ⟨idx, h⟩
            · exact Or.inr h
            · exact ih (idx + 1) e h

lemma gsFrom_shape (pe : Nat → Except String JsVal) :
    ∀ fuel idx, fuel + idx = 10 → 0 < fuel →
      ∃ n, idx + n ≤ 9 ∧ (gsFrom pe fuel idx).1 = retryTrace idx n ∧
        (∀ i, i < n → isErr (attempt_once (pe (idx + i))) = true) ∧
        (isErr (attempt_once (pe (idx + n))) = false ∨ idx + n = 9) := by
  intro fuel
  induction fuel with
  | zero => intro idx h h0; omega
  | succ fuel ih =>
      intro idx hsum h0
      cases hA : attempt_once (pe idx) with
      | ok r =>
          refine ⟨0, by omega, ?_, by omega, Or.inl ?_⟩
          · simp [gsFrom, hA, retryTrace]
          · simp [hA, isErr]
      | error m =>
          by_cases h9 : idx = 9
          · subst h9
            refine ⟨0, by omega, ?_, by omega, Or.inr (by omega)⟩
            simp [gsFrom, hA, retryTrace]
          · obtain ⟨n, hn, htr, hfail, hlast⟩ :=
              ih (idx + 1) (by omega) (by omega)
            refine ⟨n + 1, by omega, ?_, ?_, ?_⟩
            · simp [gsFrom, hA, h9, retryTrace, htr]
            · intro i hi
              cases i with
              | zero => simp [hA, isErr]
              | succ j =>
                  have hj := hfail j (by omega)
                  have h2 : idx + (j + 1) = idx + 1 + j := by omega
                  rw [h2]
                  exact hj
            · have : idx + (n + 1) = idx + 1 + n := by omega
              rw [this]
              exact hlast

lemma gsFrom_allfail (pe : Nat → Except String JsVal) (m : String) :
    ∀ fuel idx, fuel + idx = 10 → 0 < fuel →
      (∀ i, idx ≤ i → i ≤ 9 → isErr (attempt_once (pe i)) = true) →
      attempt_once (pe 9) = .error m →
      (gsFrom pe fuel idx).2 = .error (wrapMsg m) := by
  intro fuel
  induction fuel with
  | zero => intro idx h h0; omega
  | succ fuel ih =>
      intro idx hsum h0 hall h9m
      have hidx9 : idx ≤ 9 := by omega
      have herr : isErr (attempt_once (pe idx)) = true :=
        hall idx (Nat.le_refl idx) hidx9
      cases hA : attempt_once (pe idx) with
      | ok r => rw [hA] at herr; simp [isErr] at herr
      | error e =>
          by_cases h9 : idx = 9
          · subst h9
            rw [hA] at h9m
            have he : e = m := by
              injection h9m
            simp [gsFrom, hA, he]
          · simp only [gsFrom, hA, h9, if_false]
            exact ih (idx + 1) (by omega) (by omega)
              (fun i hi h9i => hall i (by omega) h9i) h9m

lemma gsFrom_ok (pe : Nat → Except String JsVal) :
    ∀ fuel idx r, (gsFrom pe fuel idx).2 = .ok r →
      ∃ i, attempt_once (pe i) = .ok r := by
  intro fuel
  induction fuel with
  | zero => intro idx r h; simp [gsFrom] at h
  | succ fuel ih =>
      intro idx r h
      simp only [gsFrom] at h
      cases hA : attempt_once (pe idx) with
      | ok r' =>
          rw [hA] at h
          simp at h
          exact ⟨idx, by rw [hA, h]⟩
      | error m =>
          rw [hA] at h
          by_cases h9 : idx = 9
          · simp [h9] at h
          · simp [h9] at h
            exact ih (idx + 1) r h

/-- A successful dict lookup means the dict is nonempty, hence truthy. -/
lemma dget_truthy_dict {d : List (String × JsVal)} {k : String} {v : JsVal}
    (h : dget d k = some v) : truthy (.dict d) = true := by
  cases d with
  | nil => simp [dget] at h
  | cons kv rest => simp [truthy]

/-! ### Claim theorems -/

/-- C1: for every call to `generate_sign`, the in-page signing function is
evaluated at most 10 times; the run is a block of failed attempts, each
followed by the fixed half-second pause, ending at the last evaluated
attempt (which either succeeded or was the 10th); and if all 10 attempts
fail, `generate_sign` raises a terminal error wrapping the last attempt's
underlying message, which `sign_endpoint` surfaces as a 500 response whose
`error` field is exactly that wrapped message — hence containing the
underlying message. -/
theorem C1_retry_budget_and_terminal_error
    (uri data a1 web_session web_id : JsVal)
    (page_eval : Nat → Except String JsVal) :
    (((generate_sign uri data a1 web_session web_id page_eval).1.filter
        isPageEvalB).length ≤ 10)
    ∧ (∃ n, n ≤ 9 ∧
        (generate_sign uri data a1 web_session web_id page_eval).1 =
          retryTrace 0 n ∧
        (∀ i, i < n → isErr (attempt_once (page_eval i)) = true) ∧
        (isErr (attempt_once (page_eval n)) = false ∨ n = 9))
    ∧ (∀ m, (∀ i, i ≤ 9 → isErr (attempt_once (page_eval i)) = true) →
        attempt_once (page_eval 9) = .error m →
        (generate_sign uri data a1 web_session web_id page_eval).2 =
          .error (wrapMsg m)
        ∧ (∀ d, truthy ((dget d "uri").getD (.str "")) = true →
            (sign_endpoint (.parsed (.dict d)) page_eval).2.status = 500 ∧
            (sign_endpoint (.parsed (.dict d)) page_eval).2.body =
              signFailureBody (wrapMsg m) "Exception")
        ∧ (∃ p, wrapMsg m = p ++ m)) := by
  refine ⟨gsFrom_count page_eval 10 0, ?_, ?_⟩
  · obtain ⟨n, h1, h2, h3, h4⟩ := gsFrom_shape page_eval 10 0 rfl (by omega)
    exact ⟨n, by omega, by simpa using h2, by simpa using h3,
      by simpa using h4⟩
  · intro m hall h9
    have hres2 : (gsFrom page_eval 10 0).2 = .error (wrapMsg m) :=
      gsFrom_allfail page_eval m 10 0 rfl (by omega)
        (fun i _ h9i => hall i h9i) h9
    refine ⟨hres2, ?_, ⟨"签名失败（重试10次）: ", rfl⟩⟩
    intro d hd
    have hdict : truthy (JsVal.dict d) = true := by
      rcases hu : dget d "uri" with _ | v
      · rw [hu] at hd
        simp [truthy] at hd
      · exact dget_truthy_dict hu
    constructor
    · simp [sign_endpoint, hdict, hd, generate_sign, hres2]
    · simp [sign_endpoint, hdict, hd, generate_sign, hres2]

/-- Witness for C1: a concrete oracle failing all attempts yields the
terminal wrapped error and a 500 response from the handler. -/
theorem C1_retry_budget_and_terminal_error_witness :
    (generate_sign (.str "/api/sns/web/v1/feed") .nil (.str "") (.str "")
        (.str "") (fun _ => .error "boom")).2 = .error (wrapMsg "boom")
    ∧ (sign_endpoint
        (.parsed (.dict [("uri", .str "/api/sns/web/v1/feed")]))
        (fun _ => .error "boom")).2.status = 500 := by
  have h := (C1_retry_budget_and_terminal_error (.str "/api/sns/web/v1/feed")
    .nil (.str "") (.str "") (.str "") (fun _ => .error "boom")).2.2
    "boom" (fun i _ => rfl) rfl
  exact ⟨h.1, (h.2.1 [("uri", .str "/api/sns/web/v1/feed")] (by decide)).1⟩

/-- Lookup of a key in a response's JSON body. -/
def bodyGet (r : HttpResponse) (k : String) : Option JsVal :=
  match r.body with
  | .dict entries => dget entries k
  | _ => none

/-- Whether a value is a Python string. -/
def isStrB : JsVal → Bool
  | .str _ => true
  | _ => false

/-- C3: a POST /sign whose parsed body is absent (`None`) or whose `uri`
field is absent or the empty string gets a 400 response whose body carries
an `error` string and `success: false`, regardless of any other fields, and
the signing engine is never invoked (the event trace is empty). -/
theorem C3_missing_uri_always_400
    (page_eval : Nat → Except String JsVal) :
    (sign_endpoint (.parsed .nil) page_eval =
      ([], { status := 400,
             body := .dict [("error", .str "Request body is required"),
               ("success", .bool false)] }))
    ∧ (∀ d, (dget d "uri" = none ∨ dget d "uri" = some (.str "")) →
        (sign_endpoint (.parsed (.dict d)) page_eval).2.status = 400
        ∧ bodyGet (sign_endpoint (.parsed (.dict d)) page_eval).2 "success"
            = some (.bool false)
        ∧ (∃ s, bodyGet (sign_endpoint (.parsed (.dict d)) page_eval).2
            "error" = some (.str s))
        ∧ (sign_endpoint (.parsed (.dict d)) page_eval).1 = []) := by
  refine ⟨rfl, ?_⟩
  intro d hu
  have huri : truthy ((dget d "uri").getD (.str "")) = false := by
    rcases hu with hu | hu <;> simp [hu, truthy]
  by_cases hd : truthy (JsVal.dict d) = true
  · simp only [dget] at huri
    refine ⟨?_, ?_, ⟨"uri parameter is required", ?_⟩, ?_⟩ <;>
      simp [sign_endpoint, hd, huri, bodyGet, dget]
  · have hd' : truthy (JsVal.dict d) = false := by simpa using hd
    refine ⟨?_, ?_, ⟨"Request body is required", ?_⟩, ?_⟩ <;>
      simp [sign_endpoint, hd', bodyGet, dget]

/-- Witness for C3 at a body carrying every optional field but no `uri`. -/
theorem C3_missing_uri_always_400_witness :
    (sign_endpoint (.parsed (.dict [("data", .str "hello"),
        ("a1", .str "tok"), ("web_session", .str "ws"),
        ("web_id", .str "wid")])) (fun _ => .error "boom")).2.status = 400
    ∧ (sign_endpoint (.parsed (.dict [("data", .str "hello"),
        ("a1", .str "tok"), ("web_session", .str "ws"),
        ("web_id", .str "wid")])) (fun _ => .error "boom")).1 = [] := by
  constructor
  · exact ((C3_missing_uri_always_400 (fun _ => .error "boom")).2
      [("data", .str "hello"), ("a1", .str "tok"),
       ("web_session", .str "ws"), ("web_id", .str "wid")] (Or.inl rfl)).1
  · exact ((C3_missing_uri_always_400 (fun _ => .error "boom")).2
      [("data", .str "hello"), ("a1", .str "tok"),
       ("web_session", .str "ws"), ("web_id", .str "wid")]
      (Or.inl rfl)).2.2.2

/-- C10: when `request.get_json()` raises (body present but not parsable as
JSON, including a non-JSON content type), the handler's generic
except-clause answers 500 with `error`, `error_type`, `success: false` and
`hint` fields — not the 400 validation response — and the signing engine is
not invoked. -/
theorem C10_parse_failure_is_500 (msg ty : String)
    (page_eval : Nat → Except String JsVal) :
    sign_endpoint (.raised msg ty) page_eval =
      ([], { status := 500, body := .dict [("error", .str msg),
        ("error_type", .str ty), ("success", .bool false),
        ("hint", .str hintMsg)] })
    ∧ (sign_endpoint (.raised msg ty) page_eval).2.status ≠ 400 := by
  refine ⟨rfl, ?_⟩
  simp [sign_endpoint]

/-- Witness for C10 at the message Werkzeug's BadRequest carries. -/
theorem C10_parse_failure_is_500_witness :
    (sign_endpoint (.raised
      "400 Bad Request: The browser (or proxy) sent a request that this server could not understand."
      "BadRequest") (fun _ => .error "boom")).2.status ≠ 400 :=
  (C10_parse_failure_is_500
    "400 Bad Request: The browser (or proxy) sent a request that this server could not understand."
    "BadRequest" (fun _ => .error "boom")).2

/-! ### Shape of a successful attempt (for C4 and C5) -/

lemma attempt_once_ok {o : Except String JsVal} {r : JsVal}
    (h : attempt_once o = .ok r) :
    ∃ d, o = .ok (.dict d)
      ∧ r = .dict [("x-s", extractSig d),
          ("x-t", .str (pyStr (extractTs d)))]
      ∧ (truthy (extractSig d) && !(sliceable (extractSig d))) = false := by
  cases o with
  | error e => simp [attempt_once] at h
  | ok v =>
      cases v with
      | str s => simp [attempt_once] at h
      | num n => simp [attempt_once] at h
      | bool b => simp [attempt_once] at h
      | nil => simp [attempt_once] at h
      | list l => simp [attempt_once] at h
      | dict d =>
          by_cases hc :
              (truthy (extractSig d) && !(sliceable (extractSig d))) = true
          · exfalso
            simp [attempt_once, hc] at h
          · have hc' :
                (truthy (extractSig d) && !(sliceable (extractSig d)))
                  = false := by simpa using hc
            have hr : JsVal.dict [("x-s", extractSig d),
                ("x-t", .str (pyStr (extractTs d)))] = r := by
              simpa [attempt_once, hc'] using h
            exact ⟨d, rfl, hr.symm, hc'⟩

lemma extractSig_falsy {d : List (String × JsVal)}
    (h : truthy (extractSig d) = false) : extractSig d = .str "" := by
  unfold extractSig at h ⊢
  by_cases ht : truthy (pyOr ((dget d "X-s").getD .nil)
      ((dget d "x-s").getD .nil)) = true
  · exfalso
    rw [pyOr, if_pos ht] at h
    rw [h] at ht
    exact Bool.false_ne_true ht
  · have ht' : truthy (pyOr ((dget d "X-s").getD .nil)
        ((dget d "x-s").getD .nil)) = false := by simpa using ht
    rw [pyOr, if_neg]
    rw [ht']
    exact Bool.false_ne_true

lemma sliceable_cases {v : JsVal} (h : sliceable v = true) :
    (∃ s, v = .str s) ∨ (∃ l, v = .list l) := by
  cases v with
  | str s => exact Or.inl ⟨s, rfl⟩
  | list l => exact Or.inr ⟨l, rfl⟩
  | num n => simp [sliceable] at h
  | bool b => simp [sliceable] at h
  | nil => simp [sliceable] at h
  | dict d => simp [sliceable] at h

/-- C4 counterexample: with the in-page function returning a list under
"X-s", the call succeeds and the returned "x-s" value is that list, not a
string — refuting "both field values are strings". -/
theorem C4_counterexample :
    (generate_sign (.str "/u") .nil (.str "") (.str "") (.str "")
        (fun _ => .ok (.dict [("X-s", .list [.num 1]), ("X-t", .num 5)]))).2
      = .ok (.dict [("x-s", .list [.num 1]), ("x-t", .str "5")])
    ∧ isStrB (.list [.num 1]) = false := by
  exact ⟨rfl, rfl⟩

/-- C4 amended: every successful `generate_sign` call returns a dict with
exactly the two keys "x-s" and "x-t" in this fixed lower-case spelling,
whichever casing the signing function used; the "x-t" value is always a
string (`str()` is applied); the "x-s" value is passed through unconverted
and is a string or a list — a string whenever the signing function supplied
a string or the field was absent/falsy (then the empty string). -/
theorem C4_amended_result_shape
    (uri data a1 web_session web_id : JsVal)
    (page_eval : Nat → Except String JsVal) (r : JsVal)
    (h : (generate_sign uri data a1 web_session web_id page_eval).2
      = .ok r) :
    ∃ xs t, r = .dict [("x-s", xs), ("x-t", .str t)]
      ∧ ((∃ s, xs = .str s) ∨ (∃ l, xs = .list l)) := by
  obtain ⟨i, hi⟩ := gsFrom_ok page_eval 10 0 r h
  obtain ⟨d, ho, hr, hc⟩ := attempt_once_ok hi
  refine ⟨extractSig d, pyStr (extractTs d), hr, ?_⟩
  by_cases ht : truthy (extractSig d) = true
  · have hs : sliceable (extractSig d) = true := by
      cases hsl : sliceable (extractSig d)
      · rw [ht, hsl] at hc
        simp at hc
      · rfl
    exact sliceable_cases hs
  · have ht' : truthy (extractSig d) = false := by simpa using ht
    exact Or.inl ⟨"", extractSig_falsy ht'⟩

/-- Witness for C4 (amended) at an oracle returning a string signature and a
numeric timestamp. -/
theorem C4_amended_result_shape_witness :
    ∃ xs t, JsVal.dict [("x-s", .str "SIG"), ("x-t", .str "17")]
        = .dict [("x-s", xs), ("x-t", .str t)]
      ∧ ((∃ s, xs = .str s) ∨ (∃ l, xs = .list l)) :=
  C4_amended_result_shape (.str "/u") .nil (.str "") (.str "") (.str "")
    (fun _ => .ok (.dict [("X-s", .str "SIG"), ("X-t", .num 17)]))
    (.dict [("x-s", .str "SIG"), ("x-t", .str "17")]) rfl

/-- C5 counterexample: an attempt whose in-page function returns a mapping
lacking the timestamp field is not always treated as success.  With
`{"X-s": 5}` (timestamp absent, signature a number) the success-path log
slices the integer, so the attempt raises `TypeError`, is retried 10 times,
and the call ends in the terminal failure — refuting "the attempt is
treated as success". -/
theorem C5_counterexample :
    isErr (attempt_once (.ok (.dict [("X-s", .num 5)]))) = true
    ∧ (generate_sign (.str "/u") .nil (.str "") (.str "") (.str "")
        (fun _ => .ok (.dict [("X-s", .num 5)]))).2 =
      .error (wrapMsg "\x27int\x27 object is not subscriptable")
    ∧ ((generate_sign (.str "/u") .nil (.str "") (.str "") (.str "")
        (fun _ => .ok (.dict [("X-s", .num 5)]))).1.filter
          isPageEvalB).length = 10 := by
  exact ⟨rfl, rfl, rfl⟩

/-- C5 amended: when an attempt's in-page function returns a mapping,
absence of the signature field never aborts the attempt — it succeeds at
once with an empty-string signature; absence of the timestamp field also
yields an immediate success with empty-string timestamp provided the
extracted signature value is a string (as when that field is absent or a
proper string); but a truthy non-sliceable signature value (e.g. a number)
makes the attempt fail in the success-path log and be retried, so a missing
timestamp alone does not guarantee success (see the counterexample). -/
theorem C5_amended_missing_fields
    (uri data a1 web_session web_id : JsVal)
    (page_eval : Nat → Except String JsVal) (d : List (String × JsVal))
    (h0 : page_eval 0 = .ok (.dict d)) :
    ((dget d "X-s" = none ∧ dget d "x-s" = none) →
      (generate_sign uri data a1 web_session web_id page_eval).2 =
        .ok (.dict [("x-s", .str ""),
          ("x-t", .str (pyStr (extractTs d)))])
      ∧ (generate_sign uri data a1 web_session web_id page_eval).1 =
        [Event.pageEval 0])
    ∧ ((dget d "X-t" = none ∧ dget d "x-t" = none) →
        ∀ s, extractSig d = .str s →
        (generate_sign uri data a1 web_session web_id page_eval).2 =
          .ok (.dict [("x-s", .str s), ("x-t", .str "")])
        ∧ (generate_sign uri data a1 web_session web_id page_eval).1 =
          [Event.pageEval 0]) := by
  constructor
  · rintro ⟨h1, h2⟩
    have hsig : extractSig d = .str "" := by
      simp [extractSig, h1, h2, pyOr, truthy]
    constructor <;>
      simp [generate_sign, gsFrom, h0, attempt_once, hsig, truthy, sliceable]
  · rintro ⟨h1, h2⟩ s hs
    have hts : extractTs d = .str "" := by
      simp [extractTs, h1, h2, pyOr, truthy]
    constructor <;>
      simp [generate_sign, gsFrom, h0, attempt_once, hs, hts, truthy,
        sliceable, pyStr]

/-- Witness for C5 (amended): a mapping with neither field yields an
immediate success with empty-string fields. -/
theorem C5_amended_missing_fields_witness :
    (generate_sign (.str "/u") .nil (.str "") (.str "") (.str "")
        (fun _ => .ok (.dict [("foo", .num 1)]))).2 =
      .ok (.dict [("x-s", .str ""),
        ("x-t", .str (pyStr (extractTs [("foo", .num 1)])))]) :=
  ((C5_amended_missing_fields (.str "/u") .nil (.str "") (.str "") (.str "")
    (fun _ => .ok (.dict [("foo", .num 1)])) [("foo", .num 1)] rfl).1
    ⟨rfl, rfl⟩).1

/-! ### Helper lemmas about initialization and the download loop -/

/-- Whether a Playwright call succeeded. -/
def okB : Except String Unit → Bool
  | .ok _ => true
  | .error _ => false

/-- Whether one mirror's fetch fails or yields an implausibly small body:
the request raised, the status triggers `raise_for_status`, or the body is
under 100 characters. -/
def mirrorFailsB : NetOutcome → Bool
  | .err _ => true
  | .resp status text =>
      decide (400 ≤ status) || decide (text.length < 100)

/-- Whether a run of `init_browser` from this system state gets far enough
to assign the page handle: engine start, launch and context creation
succeed, script registration succeeds whenever a stealth file is available,
and page creation succeeds. -/
def pageAssignedB (sys : Sys) (env : InitEnv) : Bool :=
  okB env.start_result && okB env.launch_result &&
    okB env.new_context_result &&
    (!(download_stealth_js sys.fs env.net).1.isSome ||
      okB env.add_script_result) &&
    okB env.new_page_result

lemma dlTry_events (fs : FS) (net : Nat → NetOutcome) :
    ∀ l e, e ∈ (dlTry fs net l).2.2 →
      (∃ i, e = Event.netGet i) ∨ e = Event.fileWrite := by
  intro l
  induction l with
  | nil => intro e he; simp [dlTry] at he
  | cons i rest ih =>
      intro e he
      cases hn : net i with
      | err m =>
          simp only [dlTry, hn] at he
          rcases List.mem_cons.mp he with h1 | h1
          · exact Or.inl ⟨i, h1⟩
          · exact ih e h1
      | resp status text =>
          simp only [dlTry, hn] at he
          by_cases h4 : 400 ≤ status
          · rw [if_pos h4] at he
            rcases List.mem_cons.mp he with h1 | h1
            · exact Or.inl ⟨i, h1⟩
            · exact ih e h1
          · rw [if_neg h4] at he
            by_cases hl : text.length < 100
            · rw [if_pos hl] at he
              rcases List.mem_cons.mp he with h1 | h1
              · exact Or.inl ⟨i, h1⟩
              · exact ih e h1
            · rw [if_neg hl] at he
              simp only [List.mem_cons, List.not_mem_nil, or_false] at he
              rcases he with h1 | h1
              · exact Or.inl ⟨i, h1⟩
              · exact Or.inr h1

lemma download_events (fs : FS) (net : Nat → NetOutcome) :
    ∀ e, e ∈ (download_stealth_js fs net).2.2 →
      (∃ i, e = Event.netGet i) ∨ e = Event.fileWrite := by
  intro e he
  by_cases h : fs.stealth.isSome = true
  · simp [download_stealth_js, h] at he
  · have h' : fs.stealth.isSome = false := by simpa using h
    simp only [download_stealth_js, h', Bool.false_eq_true, if_false] at he
    exact dlTry_events fs net [0, 1, 2] e he

lemma dlTry_allfail (fs : FS) (net : Nat → NetOutcome) :
    ∀ l, (∀ i ∈ l, mirrorFailsB (net i) = true) →
      (dlTry fs net l).1 = none ∧ (dlTry fs net l).2.1 = fs
      ∧ Event.fileWrite ∉ (dlTry fs net l).2.2 := by
  intro l
  induction l with
  | nil => intro h; simp [dlTry]
  | cons i rest ih =>
      intro h
      have hi := h i (List.mem_cons_self i rest)
      have hrest := ih (fun j hj => h j (List.mem_cons_of_mem i hj))
      cases hn : net i with
      | err m =>
          simp only [dlTry, hn]
          refine ⟨hrest.1, hrest.2.1, ?_⟩
          intro hmem
          rcases List.mem_cons.mp hmem with h1 | h1
          · exact Event.noConfusion h1
          · exact hrest.2.2 h1
      | resp status text =>
          rw [hn] at hi
          simp only [mirrorFailsB, Bool.or_eq_true, decide_eq_true_eq] at hi
          simp only [dlTry, hn]
          by_cases h4 : 400 ≤ status
          · rw [if_pos h4]
            refine ⟨hrest.1, hrest.2.1, ?_⟩
            intro hmem
            rcases List.mem_cons.mp hmem with h1 | h1
            · exact Event.noConfusion h1
            · exact hrest.2.2 h1
          · have hl : text.length < 100 := by
              rcases hi with hi | hi
              · exact absurd hi h4
              · exact hi
            rw [if_neg h4, if_pos hl]
            refine ⟨hrest.1, hrest.2.1, ?_⟩
            intro hmem
            rcases List.mem_cons.mp hmem with h1 | h1
            · exact Event.noConfusion h1
            · exact hrest.2.2 h1

lemma init_browser_no_pageEval (sys : Sys) (env : InitEnv) :
    ∀ i, Event.pageEval i ∉ (init_browser sys env).2.1 := by
  intro i hmem
  obtain ⟨net, sr, lr, ncr, asr, npr, gr, cks⟩ := env
  have hdl := download_events sys.fs net
  rcases hdlv : (download_stealth_js sys.fs net).1 with _ | p <;>
    cases sr <;> cases lr <;> cases ncr <;> cases asr <;> cases npr <;>
    cases gr <;>
    simp [init_browser, init_browser_rest, hdlv] at hmem <;>
    rcases hdl _ hmem with ⟨j, hj⟩ | hj <;>
    exact Event.noConfusion hj

lemma init_browser_ok_page (sys : Sys) (env : InitEnv)
    (h : okB (init_browser sys env).2.2 = true) :
    (init_browser sys env).1.st.context_page = some () := by
  obtain ⟨net, sr, lr, ncr, asr, npr, gr, cks⟩ := env
  rcases hdlv : (download_stealth_js sys.fs net).1 with _ | p <;>
    cases sr <;> cases lr <;> cases ncr <;> cases asr <;> cases npr <;>
    cases gr <;>
    simp [init_browser, init_browser_rest, hdlv, okB] at h ⊢

lemma init_browser_page_iff (sys : Sys) (env : InitEnv)
    (h : sys.st.context_page = none) :
    (init_browser sys env).1.st.context_page =
      (if pageAssignedB sys env then some () else none) := by
  obtain ⟨net, sr, lr, ncr, asr, npr, gr, cks⟩ := env
  rcases hdlv : (download_stealth_js sys.fs net).1 with _ | p <;>
    cases sr <;> cases lr <;> cases ncr <;> cases asr <;> cases npr <;>
    cases gr <;>
    simp [init_browser, init_browser_rest, pageAssignedB, okB, hdlv, h]

lemma init_browser_playwright (sys : Sys) (env : InitEnv)
    (h : okB env.start_result = true) :
    (init_browser sys env).1.st.playwright_instance = some () := by
  obtain ⟨net, sr, lr, ncr, asr, npr, gr, cks⟩ := env
  cases sr with
  | error e => simp [okB] at h
  | ok u =>
      rcases hdlv : (download_stealth_js sys.fs net).1 with _ | p <;>
        cases lr <;> cases ncr <;> cases asr <;> cases npr <;> cases gr <;>
        simp [init_browser, init_browser_rest, hdlv]

lemma ensure_browser_no_pageEval (sys : Sys) (env : InitEnv) :
    ∀ i, Event.pageEval i ∉ (ensure_browser sys env).2.1 := by
  intro i
  by_cases h : sys.st.context_page = none
  · simp only [ensure_browser, if_pos h]
    exact init_browser_no_pageEval sys env i
  · simp [ensure_browser, h]

lemma sign_endpoint_events (gj : GetJsonResult)
    (pe : Nat → Except String JsVal) :
    ∀ e, e ∈ (sign_endpoint gj pe).1 →
      (∃ i, e = Event.pageEval i) ∨ e = Event.sleepHalf := by
  intro e he
  cases gj with
  | raised m t => simp [sign_endpoint] at he
  | parsed v =>
      by_cases hv : truthy v = true
      · cases v with
        | str s => simp [sign_endpoint, hv] at he
        | num n => simp [sign_endpoint, hv] at he
        | bool b => simp [sign_endpoint, hv] at he
        | nil => simp [sign_endpoint, hv] at he
        | list l => simp [sign_endpoint, hv] at he
        | dict d =>
            by_cases hu : truthy ((dget d "uri").getD (.str "")) = true
            · simp only [sign_endpoint, hv, hu, Bool.not_true,
                Bool.false_eq_true, if_false] at he
              rcases hg : (generate_sign ((dget d "uri").getD (.str ""))
                  ((dget d "data").getD .nil) ((dget d "a1").getD (.str ""))
                  ((dget d "web_session").getD (.str ""))
                  ((dget d "web_id").getD (.str "")) pe).2 with m | r <;>
                rw [hg] at he <;>
                exact gsFrom_events pe 10 0 e he
            · have hu' : truthy ((dget d "uri").getD (.str "")) = false := by
                simpa using hu
              simp [sign_endpoint, hv, hu'] at he
      · have hv' : truthy v = false := by simpa using hv
        simp [sign_endpoint, hv'] at he

lemma sign_endpoint_malformed (pe : Nat → Except String JsVal)
    (gj : GetJsonResult)
    (hm : gj = .parsed .nil ∨ ∃ d, gj = .parsed (.dict d) ∧
      (dget d "uri" = none ∨ dget d "uri" = some (.str ""))) :
    (sign_endpoint gj pe).1 = [] ∧ (sign_endpoint gj pe).2.status = 400 := by
  rcases hm with hm | ⟨d, hm, hu⟩
  · subst hm
    exact ⟨rfl, rfl⟩
  · subst hm
    have huri : truthy ((dget d "uri").getD (.str "")) = false := by
      rcases hu with hu | hu <;> simp [hu, truthy]
    by_cases hd : truthy (JsVal.dict d) = true
    · constructor <;> simp [sign_endpoint, hd, huri]
    · have hd' : truthy (JsVal.dict d) = false := by simpa using hd
      constructor <;> simp [sign_endpoint, hd']

lemma ensure_browser_some (sys : Sys) (env : InitEnv)
    (h : sys.st.context_page = some ()) :
    ensure_browser sys env = (sys, [], .ok ()) := by
  simp [ensure_browser, h]

lemma ensure_browser_none (sys : Sys) (env : InitEnv)
    (h : sys.st.context_page = none) :
    ensure_browser sys env = init_browser sys env := by
  simp [ensure_browser, h]

lemma handle_postSign_reduce (sys : Sys) (env : Env) (gj : GetJsonResult) :
    (okB (ensure_browser sys env.init).2.2 = false →
      handle_request sys env (.postSign gj) =
        ((ensure_browser sys env.init).1, (ensure_browser sys env.init).2.1,
          { status := 500, body := internalErrorBody }))
    ∧ (okB (ensure_browser sys env.init).2.2 = true →
      handle_request sys env (.postSign gj) =
        ((ensure_browser sys env.init).1,
          (ensure_browser sys env.init).2.1 ++
            (sign_endpoint gj env.page_eval).1,
          (sign_endpoint gj env.page_eval).2)) := by
  constructor <;> intro h <;>
    rcases hens : (ensure_browser sys env.init).2.2 with e | u <;>
    rw [hens] at h <;>
    simp [okB] at h <;>
    simp [handle_request, hens]

lemma handle_getHealth_reduce (sys : Sys) (env : Env) :
    (okB (ensure_browser sys env.init).2.2 = false →
      (handle_request sys env .getHealth).2.2 =
        { status := 500, body := internalErrorBody })
    ∧ (okB (ensure_browser sys env.init).2.2 = true →
      (handle_request sys env .getHealth).2.2 =
        health_check (ensure_browser sys env.init).1.st env.now) := by
  constructor <;> intro h <;>
    rcases hens : (ensure_browser sys env.init).2.2 with e | u <;>
    rw [hens] at h <;>
    simp [okB] at h <;>
    simp [handle_request, hens]

/-! ### Concrete fixtures for counterexamples and witnesses -/

/-- Initialization environment whose only failure is the home-page
navigation; the asset mirrors are unreachable. -/
def envGotoFail : InitEnv :=
  { net := fun _ => .err "offline",
    start_result := .ok (), launch_result := .ok (),
    new_context_result := .ok (), add_script_result := .ok (),
    new_page_result := .ok (), goto_result := .error "nav timeout",
    cookies := [] }

/-- Fully successful initialization environment. -/
def envInitOk : InitEnv :=
  { net := fun _ => .err "offline",
    start_result := .ok (), launch_result := .ok (),
    new_context_result := .ok (), add_script_result := .ok (),
    new_page_result := .ok (), goto_result := .ok (),
    cookies := [("a1", "browser-generated-a1")] }

/-- Request environment with a successful initialization and an
always-failing signing oracle. -/
def envOkFull : Env :=
  { init := envInitOk, page_eval := fun _ => .error "boom",
    now := 1700000000 }

/-- A ready session: every handle assigned and an identity token captured. -/
def readySys : Sys :=
  { st := { playwright_instance := some (), browser_context := some (),
            context_page := some (), global_a1 := "abcdef" },
    fs := { stealth := some "window" } }

/-- C2 counterexample: a navigation failure aborts `init_browser` with an
exception, yet the page handle is already assigned, so the state does NOT
return to Uninitialized — and the readiness check of a subsequent request
performs no initialization at all, refuting "the readiness check attempts
the full initialization sequence again". -/
theorem C2_counterexample :
    (init_browser sys0 envGotoFail).2.2 = .error "nav timeout"
    ∧ (init_browser sys0 envGotoFail).1.st.context_page = some ()
    ∧ ensure_browser (init_browser sys0 envGotoFail).1 envGotoFail =
        ((init_browser sys0 envGotoFail).1, [], .ok ()) := by
  exact ⟨rfl, rfl, rfl⟩

/-- C2 amended: after a failed initialization from an uninitialized state,
the page handle is assigned exactly when the failure happened after page
creation (i.e. during navigation).  When it is still unassigned, the
readiness check of a subsequent request runs the full `init_browser`
sequence again; when it is assigned, the readiness check does nothing.
Partial state is NOT cleared: a successful engine start leaves the engine
handle assigned whatever happens later. -/
theorem C2_amended_partial_state_on_failure
    (sys : Sys) (env env2 : InitEnv) (h : sys.st.context_page = none) :
    ((init_browser sys env).1.st.context_page =
      (if pageAssignedB sys env then some () else none))
    ∧ ((init_browser sys env).1.st.context_page = none →
        ensure_browser (init_browser sys env).1 env2 =
          init_browser (init_browser sys env).1 env2)
    ∧ ((init_browser sys env).1.st.context_page = some () →
        ensure_browser (init_browser sys env).1 env2 =
          ((init_browser sys env).1, [], .ok ()))
    ∧ (okB env.start_result = true →
        (init_browser sys env).1.st.playwright_instance = some ()) := by
  refine ⟨init_browser_page_iff sys env h, ?_, ?_,
    init_browser_playwright sys env⟩
  · intro hp
    simp [ensure_browser, hp]
  · intro hp
    simp [ensure_browser, hp]

/-- Witness for C2 (amended) at the goto-failure environment. -/
theorem C2_amended_partial_state_on_failure_witness :
    (init_browser sys0 envGotoFail).1.st.context_page =
      (if pageAssignedB sys0 envGotoFail then some () else none)
    ∧ (init_browser sys0 envGotoFail).1.st.playwright_instance = some () := by
  have h := C2_amended_partial_state_on_failure sys0 envGotoFail envGotoFail
    rfl
  exact ⟨h.1, h.2.2.2 rfl⟩

/-- C6 counterexample: a POST /sign with an absent body arriving at a fresh
process is answered 400, but the before-request hook has already run the
full browser initialization: afterwards the page handle is assigned and the
trace contains the home-page navigation — refuting "neither initializes a
browser session". -/
theorem C6_counterexample :
    sys0.st.context_page = none
    ∧ (handle_request sys0 envOkFull (.postSign (.parsed .nil))).2.2.status
        = 400
    ∧ (handle_request sys0 envOkFull
        (.postSign (.parsed .nil))).1.st.context_page = some ()
    ∧ Event.gotoHome ∈
        (handle_request sys0 envOkFull (.postSign (.parsed .nil))).2.1 := by
  exact ⟨rfl, rfl, rfl, by decide⟩

/-- C6 amended: a malformed POST /sign (absent body or absent/empty `uri`)
never evaluates anything in the live page; when a session already exists it
is rejected 400 with the state untouched; but when no session exists the
before-request hook still runs the full initialization first (the resulting
state is `init_browser`'s), answering 400 only if that initialization
succeeded. -/
theorem C6_amended_reject_but_init_hook
    (sys : Sys) (env : Env) (gj : GetJsonResult)
    (hm : gj = .parsed .nil ∨ ∃ d, gj = .parsed (.dict d) ∧
      (dget d "uri" = none ∨ dget d "uri" = some (.str ""))) :
    (∀ i, Event.pageEval i ∉ (handle_request sys env (.postSign gj)).2.1)
    ∧ (sys.st.context_page = some () →
        (handle_request sys env (.postSign gj)).1 = sys
        ∧ (handle_request sys env (.postSign gj)).2.2.status = 400)
    ∧ (sys.st.context_page = none →
        (handle_request sys env (.postSign gj)).1 =
          (init_browser sys env.init).1
        ∧ (okB (init_browser sys env.init).2.2 = true →
            (handle_request sys env (.postSign gj)).2.2.status = 400)) := by
  have hse := sign_endpoint_malformed env.page_eval gj hm
  refine ⟨?_, ?_, ?_⟩
  · intro i hmem
    cases hok : okB (ensure_browser sys env.init).2.2 with
    | false =>
        rw [(handle_postSign_reduce sys env gj).1 hok] at hmem
        exact ensure_browser_no_pageEval sys env.init i hmem
    | true =>
        rw [(handle_postSign_reduce sys env gj).2 hok] at hmem
        rw [hse.1, List.append_nil] at hmem
        exact ensure_browser_no_pageEval sys env.init i hmem
  · intro hp
    have hens := ensure_browser_some sys env.init hp
    have hok : okB (ensure_browser sys env.init).2.2 = true := by
      rw [hens]
      rfl
    have hred := (handle_postSign_reduce sys env gj).2 hok
    rw [hens] at hred
    constructor
    · rw [hred]
    · rw [hred]
      exact hse.2
  · intro hp
    have hens := ensure_browser_none sys env.init hp
    constructor
    · cases hok : okB (ensure_browser sys env.init).2.2 with
      | false => rw [(handle_postSign_reduce sys env gj).1 hok, hens]
      | true => rw [(handle_postSign_reduce sys env gj).2 hok, hens]
    · intro hinit
      have hok : okB (ensure_browser sys env.init).2.2 = true := by
        rw [hens]
        exact hinit
      rw [(handle_postSign_reduce sys env gj).2 hok]
      exact hse.2

/-- Witness for C6 (amended): the absent-body request at a fresh process. -/
theorem C6_amended_reject_but_init_hook_witness :
    (handle_request sys0 envOkFull (.postSign (.parsed .nil))).1 =
      (init_browser sys0 envOkFull.init).1
    ∧ Event.pageEval 0 ∉
        (handle_request sys0 envOkFull (.postSign (.parsed .nil))).2.1 := by
  have h := C6_amended_reject_but_init_hook sys0 envOkFull (.parsed .nil)
    (Or.inl rfl)
  exact ⟨(h.2.2 rfl).1, h.1 0⟩

/-- C7 counterexample: a GET /health arriving before the session page
exists does not answer 503: the before-request hook initializes the session
first, and with a successful initialization the response is 200 — refuting
"GET /health returns 503 before the session page exists". -/
theorem C7_counterexample :
    sys0.st.context_page = none
    ∧ (handle_request sys0 envOkFull .getHealth).2.2.status = 200
    ∧ (handle_request sys0 envOkFull .getHealth).2.2.status ≠ 503 := by
  exact ⟨rfl, rfl, by decide⟩

/-- C7 amended: the health handler itself answers 200/"healthy"/ready when
a session page exists and 503/"initializing"/not-ready when none does; but
over HTTP every request first runs the readiness hook, so a GET /health
never yields 503: it is 200 when the page exists or was just successfully
initialized, and 500 (the error handler) when the hook's initialization
raised. -/
theorem C7_amended_health (st : ServerState) (now : Int)
    (sys : Sys) (env : Env) :
    (st.context_page.isSome = true →
      (health_check st now).status = 200
      ∧ bodyGet (health_check st now) "status" = some (.str "healthy")
      ∧ bodyGet (health_check st now) "browser_ready" = some (.bool true))
    ∧ (st.context_page = none →
      (health_check st now).status = 503
      ∧ bodyGet (health_check st now) "status" = some (.str "initializing")
      ∧ bodyGet (health_check st now) "browser_ready" = some (.bool false))
    ∧ (handle_request sys env .getHealth).2.2.status ≠ 503 := by
  refine ⟨?_, ?_, ?_⟩
  · intro h
    refine ⟨?_, ?_, ?_⟩ <;> simp [health_check, h, bodyGet, dget]
  · intro h
    refine ⟨?_, ?_, ?_⟩ <;> simp [health_check, h, bodyGet, dget]
  · cases hok : okB (ensure_browser sys env.init).2.2 with
    | false =>
        rw [(handle_getHealth_reduce sys env).1 hok]
        decide
    | true =>
        rw [(handle_getHealth_reduce sys env).2 hok]
        by_cases hp : sys.st.context_page = none
        · have hens := ensure_browser_none sys env.init hp
          rw [hens] at hok ⊢
          have hpage := init_browser_ok_page sys env.init hok
          simp [health_check, hpage]
        · have hcp : sys.st.context_page = some () := by
            cases hcp : sys.st.context_page with
            | none => exact absurd hcp hp
            | some u => cases u; rfl
          have hens := ensure_browser_some sys env.init hcp
          rw [hens]
          simp [health_check, hcp]

/-- Witness for C7 (amended): a ready state's health view, and the
pipeline's never-503 at a fresh process. -/
theorem C7_amended_health_witness :
    (health_check readySys.st 0).status = 200
    ∧ (handle_request sys0 envOkFull .getHealth).2.2.status ≠ 503 := by
  have h := C7_amended_health readySys.st 0 sys0 envOkFull
  exact ⟨(h.1 rfl).1, h.2.2⟩

/-- C8: handling a POST /sign against a live session leaves the session
state — engine, context and page handles and the captured identity token —
exactly as it was, whatever the body and however the signing attempts end;
the trace holds only page evaluations and retry pauses: no navigation, no
cookie read, no downloads, no re-initialization.  The identity token is
thus only ever written during session bootstrap (`init_browser`). -/
theorem C8_sign_preserves_session (sys : Sys) (env : Env)
    (gj : GetJsonResult) (h : sys.st.context_page = some ()) :
    (handle_request sys env (.postSign gj)).1 = sys
    ∧ (∀ e, e ∈ (handle_request sys env (.postSign gj)).2.1 →
        (∃ i, e = Event.pageEval i) ∨ e = Event.sleepHalf)
    ∧ Event.gotoHome ∉ (handle_request sys env (.postSign gj)).2.1
    ∧ Event.cookiesRead ∉ (handle_request sys env (.postSign gj)).2.1 := by
  have hens := ensure_browser_some sys env.init h
  have hok : okB (ensure_browser sys env.init).2.2 = true := by
    rw [hens]
    rfl
  have hred := (handle_postSign_reduce sys env gj).2 hok
  rw [hens] at hred
  have hev : ∀ e, e ∈ (handle_request sys env (.postSign gj)).2.1 →
      (∃ i, e = Event.pageEval i) ∨ e = Event.sleepHalf := by
    intro e he
    rw [hred] at he
    simp only [List.nil_append] at he
    exact sign_endpoint_events gj env.page_eval e he
  refine ⟨by rw [hred], hev, ?_, ?_⟩
  · intro hmem
    rcases hev _ hmem with ⟨j, hj⟩ | hj <;> exact Event.noConfusion hj
  · intro hmem
    rcases hev _ hmem with ⟨j, hj⟩ | hj <;> exact Event.noConfusion hj

/-- Witness for C8 at a ready session and a failing oracle. -/
theorem C8_sign_preserves_session_witness :
    (handle_request readySys envOkFull
      (.postSign (.parsed (.dict [("uri", .str "/u")])))).1 = readySys :=
  (C8_sign_preserves_session readySys envOkFull
    (.parsed (.dict [("uri", .str "/u")])) rfl).1

/-- C9: with the file already present, `download_stealth_js` returns the
canonical path at once, touching neither network (no fetch events) nor the
stored content; with no file and all three mirrors failing or returning an
undersized body, it returns `none` without writing — and, being a total
function, without raising. -/
theorem C9_download_idempotent_and_degrading
    (fs : FS) (net : Nat → NetOutcome) :
    (fs.stealth.isSome = true →
      download_stealth_js fs net = (some "stealth.min.js", fs, []))
    ∧ (fs.stealth = none →
        (∀ i, i < 3 → mirrorFailsB (net i) = true) →
        (download_stealth_js fs net).1 = none
        ∧ (download_stealth_js fs net).2.1 = fs
        ∧ Event.fileWrite ∉ (download_stealth_js fs net).2.2) := by
  constructor
  · intro h
    simp [download_stealth_js, h]
  · intro h hall
    have hfs : fs.stealth.isSome = false := by simp [h]
    have hdl : download_stealth_js fs net = dlTry fs net [0, 1, 2] := by
      simp [download_stealth_js, hfs]
    have hmem : ∀ i ∈ [0, 1, 2], mirrorFailsB (net i) = true := by
      intro i hi
      simp only [List.mem_cons, List.not_mem_nil, or_false] at hi
      rcases hi with rfl | rfl | rfl <;> exact hall _ (by omega)
    have hd := dlTry_allfail fs net [0, 1, 2] hmem
    rw [hdl]
    exact hd

/-- Witness for C9: a pre-existing file, then a 404-everywhere network. -/
theorem C9_download_idempotent_and_degrading_witness :
    download_stealth_js { stealth := some "cached-script" }
        (fun _ => .resp 200 "ok") =
      (some "stealth.min.js", { stealth := some "cached-script" }, [])
    ∧ (download_stealth_js { stealth := none }
        (fun _ => .resp 404 "nope")).1 = none := by
  constructor
  · exact (C9_download_idempotent_and_degrading
      { stealth := some "cached-script" } (fun _ => .resp 200 "ok")).1 rfl
  · exact ((C9_download_idempotent_and_degrading { stealth := none }
      (fun _ => .resp 404 "nope")).2 rfl (fun i _ => by decide)).1

end SignServer
